import Mathlib

/-!
Verification of the pastebin-monitor crawler (`pastebin_crawler.py`).

The Python source is shallowly embedded: Python `str` values are modelled as
Lean `String` (a sequence of Unicode characters, exactly as Python 3 strings),
the file system is an explicit state (a list of directories plus an
association list from path to file content), the network collaborators
(`PyQuery(url=...)` for the archive page and `requests.get` for a raw paste)
are modelled as inputs to the step functions, and the observable console and
timing behaviour (`Logger().log`, `time.sleep`) is modelled as a trace of
events.  Machine-level details (ANSI colour codes, `magic.from_buffer`) are
presentation only and are modelled as opaque display events.
-/

namespace PastebinCrawler

/-! ### Models of the Python string primitives used by the crawler

Each helper mirrors the corresponding Python `str` operation on the character
sequence of the string, so that every definition reduces in the kernel. -/

/-- Is `pat` a prefix of `s`?  Models Python `str.startswith` on char lists. -/
def isPrefOf : List Char → List Char → Bool
  | [], _ => true
  | _ :: _, [] => false
  | a :: as, b :: bs => a = b && isPrefOf as bs

/-- Does `s` contain `pat` as a contiguous substring?  Models a Python
`re.search` with a metacharacter-free (literal) pattern. -/
def containsSub : List Char → List Char → Bool
  | [], pat => pat.isEmpty
  | s@(_ :: rest), pat => isPrefOf pat s || containsSub rest pat

/-- Models `re.search(pat, txt, re.IGNORECASE)` for a pattern that is a
literal (no regex metacharacters): case-insensitive substring containment.
`Char.toLower` only lowers ASCII letters, as Python does for ASCII data. -/
def icontains (pat txt : String) : Bool :=
  containsSub (txt.data.map Char.toLower) (pat.data.map Char.toLower)

/-- Models the Python slice `s[0:n]`: the first `n` characters. -/
def strTake (s : String) (n : Nat) : String :=
  String.mk (s.data.take n)

/-- Models Python `str.split(sep)` for a one-character separator. -/
def splitOnChar (sep : Char) : List Char → List (List Char)
  | [] => [[]]
  | c :: rest =>
    match splitOnChar sep rest, decide (c = sep) with
    | r, true => [] :: r
    | [], false => [[c]]
    | g :: gs, false => (c :: g) :: gs

/-- The whitespace characters removed by Python `str.strip()`. -/
def isSpaceChar (c : Char) : Bool :=
  c = ' ' || c = '\t' || c = '\n' || c = '\r' || c = '\x0b' || c = '\x0c'

/-- Models Python `str.strip()`. -/
def strip (s : String) : String :=
  String.mk (((s.data.dropWhile isSpaceChar).reverse.dropWhile isSpaceChar).reverse)

/-- Models Python `','.join(fields)`. -/
def joinWithComma : List String → String
  | [] => ""
  | [x] => x
  | x :: y :: ys => x ++ "," ++ joinWithComma (y :: ys)

/-- Models Python `s.replace(old, new)` for a one-character `old` (the only
form the crawler uses: `'/'`, `':'` and `' '` substitutions). -/
def replaceChar (s : String) (old : Char) (new : String) : String :=
  String.mk ((s.data.map (fun c => if c = old then new.data else [c])).flatten)

/-! ### Constants of the `Crawler` class -/

def PASTEBIN_URL : String := "http://pastebin.com"

def PASTES_URL : String := PASTEBIN_URL ++ "/archive"

def REGEXES_FILE : String := "regexes.txt"

def PASTES_DIR : String := "archive"

def OK : Int := 1

def ACCESS_DENIED : Int := -1

def CONNECTION_FAIL : Int := -2

def OTHER_ERROR : Int := -3

/-! ### Rule loading (`Crawler.read_regexes`) -/

/-- One line of the rule file, split on `','` with each field stripped:
`[field.strip() for field in line.split(',')]`. -/
def parseLine (line : String) : List String :=
  (splitOnChar ',' line.data).map (fun f => strip (String.mk f))

/-- Is the line kept?  `line.strip() != '' and not line.startswith('#')`. -/
def retainedLine (line : String) : Bool :=
  strip line ≠ "" && !(isPrefOf ['#'] line.data)

/-- The comma-merge step: `[','.join(fields[:-2])] + fields[-2:]`.  Python
slices clamp, so `List.take (n-2)` / `List.drop (n-2)` with truncated `Nat`
subtraction reproduce the slices exactly, also on lists of length `< 2`. -/
def mergeFields (fields : List String) : List String :=
  [joinWithComma (fields.take (fields.length - 2))] ++ fields.drop (fields.length - 2)

/-- `Crawler.read_regexes`.  The rule source is `none` when the file cannot
be opened (the outer `except` calls `fatal_error`, modelled as `.error`), and
`some lines` gives the lines of the file.  The inner parse is total on the
string operations it performs, so a readable file always yields `.ok`. -/
def read_regexes (source : Option (List String)) : Except String (List (List String)) :=
  match source with
  | none => .error (REGEXES_FILE ++ " not found or not acessible.")
  | some lines => .ok (((lines.filter retainedLine).map parseLine).map mergeFields)

/-! ### Classification (the rule loop of `Crawler.check_paste`)

The third-party regex engine (`re.search` with `re.IGNORECASE`) is external
to the repository, so pattern matching is a parameter `m : String → String →
Bool`, where `m pat txt` stands for `re.search(pat, txt, re.IGNORECASE)`
being a match; `icontains` is its faithful instance on literal patterns. -/

/-- A classification rule `(regex, file, directory)`, as unpacked by
`for regex, file, directory in self.regexes`. -/
abbrev Rule := String × String × String

/-- The rule loop: the first rule whose pattern matches the given text. -/
def firstMatch (m : String → String → Bool) : List Rule → String → Option Rule
  | [], _ => none
  | r :: rs, s => if m r.1 s then some r else firstMatch m rs s

/-- The classifier: `re.search(regex, paste_txt[0:1024], re.IGNORECASE)` in
file order, first match wins. -/
def classify (m : String → String → Bool) (regexes : List Rule) (paste_txt : String) :
    Option Rule :=
  firstMatch m regexes (strTake paste_txt 1024)

/-! ### The file system state and `Crawler.save_result` -/

/-- First binding of a path in an association list of files. -/
def fsFind : List (String × String) → String → Option String
  | [], _ => none
  | (k, v) :: rest, p => if k = p then some v else fsFind rest p

/-- Remove all bindings of a path. -/
def fsErase : List (String × String) → String → List (String × String)
  | [], _ => []
  | (k, v) :: rest, p => if k = p then fsErase rest p else (k, v) :: fsErase rest p

/-- The file-system state: the set of existing directories and the contents
of the existing files. -/
structure FS where
  dirs : List String
  files : List (String × String)
deriving DecidableEq

/-- Content of a file; a file that does not exist reads as empty, matching
that `open(path, 'a')` creates the file before appending. -/
def getFile (fs : FS) (p : String) : String :=
  (fsFind fs.files p).getD ""

/-- Bind path `p` to content `c`. -/
def setFile (fs : FS) (p c : String) : FS :=
  ⟨fs.dirs, (p, c) :: fsErase fs.files p⟩

/-- `open(p, 'a')` followed by `write(s)`. -/
def appendFile (fs : FS) (p s : String) : FS :=
  setFile fs p (getFile fs p ++ s)

/-- `open(p, 'w')` followed by `write(s)`: truncate and write. -/
def writeTrunc (fs : FS) (p s : String) : FS :=
  setFile fs p s

/-- `os.makedirs(d)` inside `try/except: pass`: creating an existing
directory raises, the exception is swallowed, so this is a no-op then. -/
def mkdirs (fs : FS) (d : String) : FS :=
  if d ∈ fs.dirs then fs else ⟨d :: fs.dirs, fs.files⟩

/-- `self.PASTES_DIR + '/' + directory`. -/
def dirPath (directory : String) : String :=
  PASTES_DIR ++ "/" ++ directory

/-- `self.PASTES_DIR + '/' + file`: the audit-log path of a rule label. -/
def auditPath (file : String) : String :=
  PASTES_DIR ++ "/" ++ file

/-- One audit-log record: `timestamp + ' - ' + paste_url + '\n'`. -/
def auditLine (ts paste_url : String) : String :=
  ts ++ " - " ++ paste_url ++ "\n"

/-- The content-file name:
`timestamp.replace('/','_').replace(':','_').replace(' ','__') + '_' +
paste_id.replace('/','') + '.txt'` inside the category directory. -/
def savePath (directory ts paste_id : String) : String :=
  dirPath directory ++ "/" ++
    replaceChar (replaceChar (replaceChar ts '/' "_") ':' "_") ' ' "__" ++
    "_" ++ replaceChar paste_id '/' "" ++ ".txt"

/-- `Crawler.save_result`, with the success of the unguarded content-file
write made explicit: `contentWriteOk = false` models `open(save_paste, 'w')`
raising after the audit line has already been appended (the function then
propagates the exception, returning the partially-updated state and
`false`).  The timestamp `ts` is the `get_timestamp()` value at the call. -/
def save_result_attempt (contentWriteOk : Bool) (fs : FS)
    (paste_url paste_id file directory paste_txt ts : String) : FS × Bool :=
  let fs1 := mkdirs fs (dirPath directory)
  let fs2 := appendFile fs1 (auditPath file) (auditLine ts paste_url)
  if contentWriteOk then
    (writeTrunc fs2 (savePath directory ts paste_id) (paste_txt ++ "\n"), true)
  else
    (fs2, false)

/-- `Crawler.save_result` when both writes succeed. -/
def save_result (fs : FS) (paste_url paste_id file directory paste_txt ts : String) : FS :=
  (save_result_attempt true fs paste_url paste_id file directory paste_txt ts).1

/-! ### Observable events and the environment of a run -/

/-- Observable console/timing events.  `display a b` stands for the two
`show_paste` lines (the `magic.from_buffer(paste_txt[0:1024])` description
and the `paste_txt[0:256]` preview); `sleep n` is `time.sleep(n)`. -/
inductive Ev where
  | log : String → Ev
  | display : String → String → Ev
  | sleep : Nat → Ev
deriving DecidableEq

/-- The environment of one crawl step: the external collaborators (regex
engine `m`, content fetcher `fetch`, clock `ts`, content-write outcome
`contentWriteOk`) together with the parameters of `Crawler.start`.  `fetch
paste_id = none` models `requests.get` (or reading `req.text`) raising for
that paste; `elapsed` is the measured duration of the cycle in whole
seconds.  `delay`, `connection_timeout` and durations are modelled as `Nat`
seconds. -/
structure Env where
  m : String → String → Bool
  regexes : List Rule
  fetch : String → Option String
  ts : String
  contentWriteOk : Bool
  delay : Nat
  ban_wait : Nat
  connection_timeout : Nat
  flush_after_x_refreshes : Nat
  refresh_time : Nat
  elapsed : Nat

/-- `self.PASTEBIN_URL + '/raw' + paste_id`. -/
def pasteUrl (paste_id : String) : String :=
  PASTEBIN_URL ++ "/raw" ++ paste_id

/-- The message of the catch-all handler in `check_paste`. -/
def fetchErrMsg : String :=
  "Error reading paste (probably a 404 or encoding issue)."

/-- `Crawler.show_paste`: display only (file type description of the first
1024 characters, then the first 256 characters). -/
def show_paste (paste_txt : String) : List Ev :=
  [Ev.display (strTake paste_txt 1024) (strTake paste_txt 256)]

/-- The body of `Crawler.check_paste` once `req.text` has produced
`paste_txt`: optionally display the paste, then run the rule loop; on the
first matching rule log the find message, run `save_result` (a failing
content write lands in the catch-all handler, so the find log stays, the
error is logged and `False` is returned), else append the paste to
`self.pastes_for_save`. -/
def check_paste_fetched (env : Env) (verbose : Bool) (fs : FS)
    (buf : List (String × String)) (paste_id paste_txt : String) :
    Bool × FS × List (String × String) × List Ev :=
  let showEvs := if !verbose then show_paste paste_txt else []
  match classify env.m env.regexes paste_txt with
  | some (_, file, directory) =>
    let foundEv := Ev.log ("Found a matching paste: " ++ pasteUrl paste_id ++
      " (" ++ file ++ ")")
    if (save_result_attempt env.contentWriteOk fs (pasteUrl paste_id)
        paste_id file directory paste_txt env.ts).2 then
      (true, (save_result_attempt env.contentWriteOk fs (pasteUrl paste_id)
        paste_id file directory paste_txt env.ts).1, buf, showEvs ++ [foundEv])
    else
      (false, (save_result_attempt env.contentWriteOk fs (pasteUrl paste_id)
        paste_id file directory paste_txt env.ts).1, buf,
        showEvs ++ [foundEv, Ev.log fetchErrMsg])
  | none =>
    (false, fs, buf ++ [(paste_id, paste_txt)],
      showEvs ++ [Ev.log ("Not matching paste: " ++ pasteUrl paste_id)])

/-- `Crawler.check_paste`.  Returns the Python return value, the file
system, `self.pastes_for_save`, and the emitted events.  A fetch failure is
caught by the catch-all `except`: logged, nothing else changes, `False` is
returned. -/
def check_paste (env : Env) (verbose : Bool) (fs : FS)
    (buf : List (String × String)) (paste_id : String) :
    Bool × FS × List (String × String) × List Ev :=
  match env.fetch paste_id with
  | none => (false, fs, buf, [Ev.log fetchErrMsg])
  | some paste_txt => check_paste_fetched env verbose fs buf paste_id paste_txt

/-! ### One iteration of the `Crawler.start` loop -/

/-- The mutable fields of the `Crawler` object used by `start`. -/
structure CState where
  prev_checked_ids : List String
  new_checked_ids : List String
  count : Nat
  fs : FS
  pastes_for_save : List (String × String)

/-- The body of `for paste in pastes` (without the interactive
`KeyboardInterrupt` branch): append the id to `new_checked_ids`; if it is
not in `prev_checked_ids`, run `check_paste` and `time.sleep(delay)`;
increment `count` either way. -/
def process_paste (env : Env) (verbose : Bool) (acc : CState × List Ev)
    (paste_id : String) : CState × List Ev :=
  let s := acc.1
  let newIds := s.new_checked_ids ++ [paste_id]
  if paste_id ∈ s.prev_checked_ids then
    (⟨s.prev_checked_ids, newIds, s.count + 1, s.fs, s.pastes_for_save⟩, acc.2)
  else
    let r := check_paste env verbose s.fs s.pastes_for_save paste_id
    (⟨s.prev_checked_ids, newIds, s.count + 1, r.2.1, r.2.2.1⟩,
      acc.2 ++ r.2.2.2 ++ [Ev.sleep env.delay])

/-- End of the `OK` branch: `if count == flush_after_x_refreshes` replace
`prev_checked_ids` by `new_checked_ids` and zero the counter, else merge;
then clear `new_checked_ids`. -/
def commit_ids (flush_after_x_refreshes : Nat) (s : CState) : CState :=
  if s.count = flush_after_x_refreshes then
    ⟨s.new_checked_ids, [], 0, s.fs, s.pastes_for_save⟩
  else
    ⟨s.prev_checked_ids ++ s.new_checked_ids, [], s.count, s.fs, s.pastes_for_save⟩

/-- The refresh wait: `sleep_time = ceil(max(0, refresh_time - elapsed))`
(on whole-second inputs `Nat` truncated subtraction), logged and slept only
when positive. -/
def refresh_trace (refresh_time elapsed : Nat) : List Ev :=
  let sleep_time := refresh_time - elapsed
  if sleep_time > 0 then
    [Ev.log ("Waiting " ++ toString sleep_time ++ " seconds to refresh..."),
      Ev.sleep sleep_time]
  else []

/-- The `ACCESS_DENIED` countdown: one notice per remaining minute of
`ban_wait`, each followed by `time.sleep(60)`. -/
def ban_countdown (ban_wait : Nat) : List Ev :=
  ((List.range ban_wait).map (fun i =>
    [Ev.log ("Please wait " ++ toString (ban_wait - i) ++ " minute" ++
      (if ban_wait - i > 1 then "s" else "")), Ev.sleep 60])).flatten

/-- The non-`OK` branches of the `start` loop. -/
def backoff_trace (env : Env) (status : Int) : List Ev :=
  if status = ACCESS_DENIED then
    Ev.log "Damn! It looks like you have been banned (probably temporarily)" ::
      ban_countdown env.ban_wait
  else if status = CONNECTION_FAIL then
    [Ev.log ("Connection down. Waiting " ++ toString env.connection_timeout ++
      " seconds and trying again"), Ev.sleep env.connection_timeout]
  else if status = OTHER_ERROR then
    [Ev.log ("Unknown error. Maybe an encoding problem?" ++
      " Trying again in " ++ toString env.connection_timeout ++ " seconds ."),
      Ev.sleep 1]
  else []

/-- One iteration of the `while True` loop of `Crawler.start`.  `page` is
the result of `get_pastes()`: the status plus, when `OK`, the ordered paste
ids scraped from the archive page.  The iteration first clears
`pastes_for_save` (`del self.pastes_for_save[:]`), then either processes
the listing and commits the dedup window, or backs off per status. -/
def crawler_step (env : Env) (verbose : Bool) (st : CState)
    (page : Int × Option (List String)) : CState × List Ev :=
  let s0 : CState := ⟨st.prev_checked_ids, st.new_checked_ids, st.count, st.fs, []⟩
  if page.1 = OK then
    let r := (page.2.getD []).foldl (process_paste env verbose) (s0, [])
    (commit_ids env.flush_after_x_refreshes r.1,
      r.2 ++ refresh_trace env.refresh_time env.elapsed)
  else
    (s0, backoff_trace env page.1)

/-! ### Auxiliary observables -/

/-- Is the event a `time.sleep`? -/
def isSleep : Ev → Bool
  | Ev.sleep _ => true
  | _ => false

/-- The sleep events of a trace, in order. -/
def sleepsOf (tr : List Ev) : List Ev :=
  tr.filter isSleep

/-- The UTF-8 encoding of a character, as the list of its byte values. -/
def charBytes (c : Char) : List Nat :=
  let n := c.toNat
  if n < 128 then [n]
  else if n < 2048 then [192 + n / 64, 128 + n % 64]
  else if n < 65536 then [224 + n / 4096, 128 + n / 64 % 64, 128 + n % 64]
  else [240 + n / 262144, 128 + n / 4096 % 64, 128 + n / 64 % 64, 128 + n % 64]

/-- The UTF-8 byte sequence of a string (pastes travel over HTTP as bytes;
`req.text` decodes them to the character sequence the crawler slices). -/
def strBytes (s : String) : List Nat :=
  (s.data.map charBytes).flatten

/-- A concrete environment for witnesses: the fetcher always fails and no
pattern ever matches; `start`-parameter values are arbitrary. -/
def baseEnv : Env where
  m := fun _ _ => false
  regexes := []
  fetch := fun _ => none
  ts := "2026/10/12 10:00:00"
  contentWriteOk := true
  delay := 1
  ban_wait := 2
  connection_timeout := 5
  flush_after_x_refreshes := 100
  refresh_time := 30
  elapsed := 0

/-- The empty file system. -/
def sampleFS : FS := ⟨[], []⟩

/-- The initial crawler state: no ids seen, zero count, empty disk/buffer. -/
def sampleState : CState := ⟨[], [], 0, sampleFS, []⟩

/-! ### The claims -/

/-- C4 (confirmed): rule-line parsing keeps the last two comma-separated
fields as label and category and rejoins the preceding fields with commas as
the pattern: `"foo,bar.txt,dir1"` loads as pattern `"foo"`, label
`"bar.txt"`, category `"dir1"`, and `"a,b,c.txt,dir2"` loads as pattern
`"a,b"`, label `"c.txt"`, category `"dir2"`. -/
theorem read_regexes_embedded_comma :
    read_regexes (some ["foo,bar.txt,dir1"]) = .ok [["foo", "bar.txt", "dir1"]] ∧
    read_regexes (some ["a,b,c.txt,dir2"]) = .ok [["a,b", "c.txt", "dir2"]] :=
  ⟨rfl, rfl⟩

/-- C2 (code bug): an unreadable rule source is fatal, but a retained line
with fewer than three comma-separated fields is NOT rejected, contradicting
the format announced by the code's own `fatal_error` message: `"a,b"` loads
as the rule `["", "a", "b"]` (an empty pattern, which matches every paste)
and the one-field line `"a"` loads as the two-element entry `["", "a"]`. -/
theorem read_regexes_short_line_accepted :
    read_regexes (some ["a,b"]) = .ok [["", "a", "b"]] ∧
    read_regexes (some ["a"]) = .ok [["", "a"]] ∧
    read_regexes none = .error "regexes.txt not found or not acessible." :=
  ⟨rfl, rfl, rfl⟩

/-- C6 (confirmed): with `connection_timeout = 5`, a `CONNECTION_FAIL`
cycle logs once and sleeps exactly 5 seconds before the loop polls again;
with `ban_wait = 2`, an `ACCESS_DENIED` cycle logs the ban notice and then
exactly 2 countdown notices, one per remaining minute, each followed by a
60-second sleep, before polling resumes. -/
theorem backoff_connection_and_ban_traces :
    (crawler_step baseEnv false sampleState (CONNECTION_FAIL, none)).2 =
      [Ev.log "Connection down. Waiting 5 seconds and trying again", Ev.sleep 5] ∧
    (crawler_step baseEnv false sampleState (ACCESS_DENIED, none)).2 =
      [Ev.log "Damn! It looks like you have been banned (probably temporarily)",
        Ev.log "Please wait 2 minutes", Ev.sleep 60,
        Ev.log "Please wait 1 minute", Ev.sleep 60] := by
  decide

/-- C1 counterexample: with `flush_after_x_refreshes = 3`, the identifier
`"a"` is recorded seen in cycle 1 (the seen set is `["a"]` afterwards), yet
a cycle-2 listing of two pastes drives the paste counter to 3 and flushes,
so in cycle 3 — within the claimed window `N+1 .. N+flush_horizon−1` —
`"a"` is no longer in the seen set and would be reported new; the flush also
fired after only 2 cycles, not after `flush_after_x_refreshes` cycles. -/
theorem dedup_flush_horizon_counterexample :
    (crawler_step { baseEnv with flush_after_x_refreshes := 3 } false sampleState
        (OK, some ["a"])).1.prev_checked_ids = ["a"] ∧
    (crawler_step { baseEnv with flush_after_x_refreshes := 3 } false
        (crawler_step { baseEnv with flush_after_x_refreshes := 3 } false sampleState
          (OK, some ["a"])).1
        (OK, some ["b", "c"])).1.prev_checked_ids = ["b", "c"] ∧
    "a" ∉ (crawler_step { baseEnv with flush_after_x_refreshes := 3 } false
        (crawler_step { baseEnv with flush_after_x_refreshes := 3 } false sampleState
          (OK, some ["a"])).1
        (OK, some ["b", "c"])).1.prev_checked_ids := by
  decide

/-- Whatever the fetch outcome, one listing entry appends the id to
`new_checked_ids`, increments `count`, and leaves `prev_checked_ids`
untouched. -/
lemma process_paste_shape (env : Env) (verbose : Bool) (s : CState) (tr : List Ev)
    (p : String) :
    ∃ fs2 buf2 tr2, process_paste env verbose (s, tr) p =
      (⟨s.prev_checked_ids, s.new_checked_ids ++ [p], s.count + 1, fs2, buf2⟩, tr2) := by
  unfold process_paste
  by_cases hp : p ∈ s.prev_checked_ids
  · exact ⟨s.fs, s.pastes_for_save, tr, by simp [hp]⟩
  · refine ⟨(check_paste env verbose s.fs s.pastes_for_save p).2.1,
      (check_paste env verbose s.fs s.pastes_for_save p).2.2.1,
      tr ++ (check_paste env verbose s.fs s.pastes_for_save p).2.2.2 ++
        [Ev.sleep env.delay], ?_⟩
    simp [hp]

/-- The dedup fields after the per-paste loop: `prev_checked_ids` is
unchanged, `new_checked_ids` gains the whole listing, `count` gains the
listing length. -/
lemma foldl_process_ids (env : Env) (verbose : Bool) :
    ∀ (pastes : List String) (s : CState) (tr : List Ev),
      ((pastes.foldl (process_paste env verbose) (s, tr)).1.prev_checked_ids
          = s.prev_checked_ids) ∧
      ((pastes.foldl (process_paste env verbose) (s, tr)).1.new_checked_ids
          = s.new_checked_ids ++ pastes) ∧
      ((pastes.foldl (process_paste env verbose) (s, tr)).1.count
          = s.count + pastes.length) := by
  intro pastes
  induction pastes with
  | nil => intro s tr; simp
  | cons p ps ih =>
    intro s tr
    obtain ⟨fs2, buf2, tr2, hshape⟩ := process_paste_shape env verbose s tr p
    simp only [List.foldl_cons, hshape]
    obtain ⟨h1, h2, h3⟩ :=
      ih ⟨s.prev_checked_ids, s.new_checked_ids ++ [p], s.count + 1, fs2, buf2⟩ tr2
    refine ⟨h1, ?_, ?_⟩
    · rw [h2]; simp
    · rw [h3]; simp; omega

/-- `commit_ids` does not touch the file system. -/
lemma commit_ids_fs (n : Nat) (s : CState) : (commit_ids n s).fs = s.fs := by
  unfold commit_ids; split <;> rfl

/-- C1 amended (corrected): the flush counter counts listed paste entries
(one increment per paste of each `OK` cycle, already-seen ones included),
not refresh cycles, and the flush fires only when, at the end of an `OK`
cycle, this running count exactly equals `flush_after_x_refreshes`; it then
replaces the seen set with exactly the identifiers of the just-finished
listing window and resets the counter to 0.  On any other cycle the seen
set grows monotonically by the window, so every identifier recorded seen
stays not-new until a flush whose window omits it. -/
theorem dedup_flush_counts_pastes_not_cycles (env : Env) (verbose : Bool)
    (st : CState) (pastes : List String) :
    (st.count + pastes.length = env.flush_after_x_refreshes →
      (crawler_step env verbose st (OK, some pastes)).1.prev_checked_ids
          = st.new_checked_ids ++ pastes ∧
      (crawler_step env verbose st (OK, some pastes)).1.count = 0) ∧
    (st.count + pastes.length ≠ env.flush_after_x_refreshes →
      (crawler_step env verbose st (OK, some pastes)).1.prev_checked_ids
          = st.prev_checked_ids ++ st.new_checked_ids ++ pastes ∧
      (crawler_step env verbose st (OK, some pastes)).1.count
          = st.count + pastes.length) := by
  obtain ⟨h1, h2, h3⟩ := foldl_process_ids env verbose pastes
    ⟨st.prev_checked_ids, st.new_checked_ids, st.count, st.fs, []⟩ []
  have hstep : crawler_step env verbose st (OK, some pastes) =
      (commit_ids env.flush_after_x_refreshes
        ((pastes.foldl (process_paste env verbose)
          (⟨st.prev_checked_ids, st.new_checked_ids, st.count, st.fs, []⟩, [])).1),
        (pastes.foldl (process_paste env verbose)
          (⟨st.prev_checked_ids, st.new_checked_ids, st.count, st.fs, []⟩, [])).2 ++
          refresh_trace env.refresh_time env.elapsed) := rfl
  constructor
  · intro h
    rw [hstep]
    unfold commit_ids
    rw [h3, if_pos h]
    exact ⟨by rw [h2], rfl⟩
  · intro h
    rw [hstep]
    unfold commit_ids
    rw [h3, if_neg h]
    exact ⟨by rw [h1, h2, List.append_assoc], rfl⟩

/-- Witness for C1: a flushing cycle (count reaches 2 = threshold) and a
non-flushing cycle at the default threshold 100, evaluated concretely. -/
theorem dedup_flush_counts_pastes_witness :
    ((crawler_step { baseEnv with flush_after_x_refreshes := 2 } false sampleState
        (OK, some ["a", "b"])).1.prev_checked_ids
          = sampleState.new_checked_ids ++ ["a", "b"] ∧
      (crawler_step { baseEnv with flush_after_x_refreshes := 2 } false sampleState
        (OK, some ["a", "b"])).1.count = 0) ∧
    ((crawler_step baseEnv false sampleState (OK, some ["a"])).1.prev_checked_ids
          = sampleState.prev_checked_ids ++ sampleState.new_checked_ids ++ ["a"] ∧
      (crawler_step baseEnv false sampleState (OK, some ["a"])).1.count
          = sampleState.count + ["a"].length) :=
  ⟨(dedup_flush_counts_pastes_not_cycles { baseEnv with flush_after_x_refreshes := 2 }
      false sampleState ["a", "b"]).1 (by decide),
    (dedup_flush_counts_pastes_not_cycles baseEnv false sampleState ["a"]).2 (by decide)⟩

/-- `firstMatch` returns `some r` exactly when `r` appears in the list with
a matching pattern and every earlier rule fails to match. -/
lemma firstMatch_eq_some_iff (m : String → String → Bool) (s : String) :
    ∀ (rs : List Rule) (r : Rule),
      firstMatch m rs s = some r ↔
        ∃ pre suf, rs = pre ++ r :: suf ∧ m r.1 s = true ∧
          ∀ q ∈ pre, m q.1 s = false := by
  intro rs
  induction rs with
  | nil =>
    intro r
    simp [firstMatch]
  | cons a t ih =>
    intro r
    unfold firstMatch
    by_cases ha : m a.1 s
    · rw [if_pos ha]
      constructor
      · intro h
        exact ⟨[], t, by simp [Option.some.inj h], by rw [← Option.some.inj h]; exact ha,
          by simp⟩
      · rintro ⟨pre, suf, hd, _, hpre⟩
        cases pre with
        | nil =>
          simp only [List.nil_append, List.cons.injEq] at hd
          rw [hd.1]
        | cons b pre2 =>
          simp only [List.cons_append, List.cons.injEq] at hd
          have : m a.1 s = false := hd.1 ▸ hpre b (List.mem_cons_self b pre2)
          simp [this] at ha
    · rw [if_neg ha]
      rw [ih r]
      have haf : m a.1 s = false := by
        cases hma : m a.1 s
        · rfl
        · exact absurd hma ha
      constructor
      · rintro ⟨pre, suf, hd, hr, hpre⟩
        refine ⟨a :: pre, suf, by rw [hd, List.cons_append], hr, ?_⟩
        intro q hq
        rcases List.mem_cons.mp hq with hqa | hqp
        · rw [hqa]; exact haf
        · exact hpre q hqp
      · rintro ⟨pre, suf, hd, hr, hpre⟩
        cases pre with
        | nil =>
          simp only [List.nil_append, List.cons.injEq] at hd
          rw [hd.1] at ha
          exact absurd hr ha
        | cons b pre2 =>
          simp only [List.cons_append, List.cons.injEq] at hd
          exact ⟨pre2, suf, hd.2, hr, fun q hq => hpre q (List.mem_cons_of_mem b hq)⟩

/-- `firstMatch` returns `none` exactly when no rule matches. -/
lemma firstMatch_eq_none_iff (m : String → String → Bool) (s : String) :
    ∀ rs : List Rule, firstMatch m rs s = none ↔ ∀ q ∈ rs, m q.1 s = false := by
  intro rs
  induction rs with
  | nil => simp [firstMatch]
  | cons a t ih =>
    unfold firstMatch
    by_cases ha : m a.1 s
    · rw [if_pos ha]
      constructor
      · intro h
        exact absurd h (by simp)
      · intro h
        exact absurd (h a (List.mem_cons_self a t)) (by simp [ha])
    · rw [if_neg ha]
      rw [ih]
      have haf : m a.1 s = false := by
        cases hma : m a.1 s
        · rfl
        · exact absurd hma ha
      constructor
      · intro h q hq
        rcases List.mem_cons.mp hq with h1 | h2
        · rw [h1]; exact haf
        · exact h q h2
      · intro h q hq
        exact h q (List.mem_cons_of_mem a hq)

/-- C3 amended (corrected): for every matcher `m` (standing for
`re.search(·, ·, re.IGNORECASE)`, hence case-insensitive), classification is
a function of the rule list and the first 1024 CHARACTERS of the body (the
Python slice `paste_txt[0:1024]`): it returns the first rule in order whose
pattern matches within that prefix, returns `none` exactly when no rule
matches there, and two bodies with equal 1024-character prefixes classify
identically (determinism is inherent: `classify` is a function). -/
theorem classify_first_match_char_window (m : String → String → Bool)
    (rs : List Rule) (B B2 : String) (r : Rule) :
    (classify m rs B = some r ↔
      ∃ pre suf, rs = pre ++ r :: suf ∧ m r.1 (strTake B 1024) = true ∧
        ∀ q ∈ pre, m q.1 (strTake B 1024) = false) ∧
    (classify m rs B = none ↔ ∀ q ∈ rs, m q.1 (strTake B 1024) = false) ∧
    (strTake B 1024 = strTake B2 1024 → classify m rs B = classify m rs B2) :=
  ⟨firstMatch_eq_some_iff m (strTake B 1024) rs r,
    firstMatch_eq_none_iff m (strTake B 1024) rs,
    fun h => by unfold classify; rw [h]⟩

set_option maxRecDepth 8192 in
/-- Witness for C3: a matching body, a non-matching body, and two distinct
1025-character bodies with equal 1024-character prefixes that classify
identically, all under the literal case-insensitive matcher. -/
theorem classify_first_match_char_window_witness :
    classify icontains [("token", "tokens.txt", "found")] "has token here" =
      some ("token", "tokens.txt", "found") ∧
    classify icontains [("token", "tokens.txt", "found")] "nothing" = none ∧
    classify icontains [("token", "tokens.txt", "found")]
        (String.mk (List.replicate 1024 'a' ++ ['x'])) =
      classify icontains [("token", "tokens.txt", "found")]
        (String.mk (List.replicate 1024 'a' ++ ['y'])) :=
  ⟨(classify_first_match_char_window icontains [("token", "tokens.txt", "found")]
      "has token here" "has token here" ("token", "tokens.txt", "found")).1.mpr
      ⟨[], [], rfl, by decide, by simp⟩,
    (classify_first_match_char_window icontains [("token", "tokens.txt", "found")]
      "nothing" "nothing" ("token", "tokens.txt", "found")).2.1.mpr (by decide),
    (classify_first_match_char_window icontains [("token", "tokens.txt", "found")]
      (String.mk (List.replicate 1024 'a' ++ ['x']))
      (String.mk (List.replicate 1024 'a' ++ ['y']))
      ("token", "tokens.txt", "found")).2.2 (by decide)⟩

set_option maxRecDepth 8192 in
/-- C3 counterexample: the window is 1024 CHARACTERS (`paste_txt[0:1024]`
slices a Python `str`), not 1024 bytes.  The two bodies below agree on
their first 1024 UTF-8 bytes (512 copies of the two-byte character
`é`), yet one classifies to a rule and the other to `none`, because the
pattern occurrence lies inside the first 1024 characters but entirely
beyond the first 1024 bytes.  So text beyond the 1024-BYTE prefix does
affect the result, refuting the claim as stated. -/
theorem classify_byte_window_counterexample :
    (strBytes (String.mk (List.replicate 512 'é') ++ "SECRET")).take 1024 =
      (strBytes (String.mk (List.replicate 512 'é') ++ "AAAAAA")).take 1024 ∧
    classify icontains [("SECRET", "secret.txt", "secret")]
        (String.mk (List.replicate 512 'é') ++ "SECRET") =
      some ("SECRET", "secret.txt", "secret") ∧
    classify icontains [("SECRET", "secret.txt", "secret")]
        (String.mk (List.replicate 512 'é') ++ "AAAAAA") = none := by
  decide

/-- Erasing one path leaves the bindings of every other path intact. -/
lemma fsFind_fsErase_ne (q p : String) :
    ∀ l : List (String × String), q ≠ p → fsFind (fsErase l p) q = fsFind l q := by
  intro l hq
  induction l with
  | nil => rfl
  | cons kv rest ih =>
    obtain ⟨k, v⟩ := kv
    by_cases hk : k = p
    · simp only [fsErase, if_pos hk]
      rw [ih]
      simp only [fsFind]
      rw [if_neg (show ¬k = q by rw [hk]; exact fun h => hq h.symm)]
    · simp only [fsErase, if_neg hk, fsFind, ih]

/-- Reading back the path just written. -/
lemma getFile_setFile_same (fs : FS) (p c : String) :
    getFile (setFile fs p c) p = c := by
  simp [getFile, setFile, fsFind]

/-- Writing one path leaves the content of every other path intact. -/
lemma getFile_setFile_ne (fs : FS) (p c q : String) (h : q ≠ p) :
    getFile (setFile fs p c) q = getFile fs q := by
  simp only [getFile, setFile, fsFind]
  rw [if_neg (fun hpq => h hpq.symm), fsFind_fsErase_ne q p fs.files h]

/-- `setFile` does not touch the directory set. -/
lemma dirs_setFile (fs : FS) (p c : String) : (setFile fs p c).dirs = fs.dirs := rfl

/-- `mkdirs` does not touch the files. -/
lemma files_mkdirs (fs : FS) (d : String) : (mkdirs fs d).files = fs.files := by
  unfold mkdirs; split <;> rfl

/-- `mkdirs` adds the directory only when absent. -/
lemma dirs_mkdirs (fs : FS) (d : String) :
    (mkdirs fs d).dirs = if d ∈ fs.dirs then fs.dirs else d :: fs.dirs := by
  unfold mkdirs; split <;> rfl

/-- `mkdirs` never changes file contents. -/
lemma getFile_mkdirs (fs : FS) (d p : String) :
    getFile (mkdirs fs d) p = getFile fs p := by
  unfold getFile; rw [files_mkdirs]

/-- After `mkdirs` the directory exists. -/
lemma mem_dirs_mkdirs (fs : FS) (d : String) : d ∈ (mkdirs fs d).dirs := by
  unfold mkdirs
  split
  · assumption
  · exact List.mem_cons_self d fs.dirs

/-- A successful `save_result` is: create the directory, append the audit
line, truncating-write the content file — in that order. -/
lemma save_result_eq (fs : FS) (u id f d t ts : String) :
    save_result fs u id f d t ts =
      writeTrunc (appendFile (mkdirs fs (dirPath d)) (auditPath f) (auditLine ts u))
        (savePath d ts id) (t ++ "\n") := rfl

/-- `save_result` creates (at most) the category directory. -/
lemma save_result_dirs (fs : FS) (u id f d t ts : String) :
    (save_result fs u id f d t ts).dirs = (mkdirs fs (dirPath d)).dirs := by
  rw [save_result_eq]
  unfold writeTrunc appendFile
  rw [dirs_setFile, dirs_setFile]

/-- `save_result` appends exactly one line to the label's audit log. -/
lemma save_result_audit (fs : FS) (u id f d t ts : String)
    (h : savePath d ts id ≠ auditPath f) :
    getFile (save_result fs u id f d t ts) (auditPath f) =
      getFile fs (auditPath f) ++ auditLine ts u := by
  rw [save_result_eq]
  unfold writeTrunc appendFile
  rw [getFile_setFile_ne _ _ _ _ (Ne.symm h), getFile_setFile_same, getFile_mkdirs]

/-- `save_result` writes exactly the body plus a newline to the content
file. -/
lemma save_result_content (fs : FS) (u id f d t ts : String) :
    getFile (save_result fs u id f d t ts) (savePath d ts id) = t ++ "\n" := by
  rw [save_result_eq]
  unfold writeTrunc
  rw [getFile_setFile_same]

/-- `save_result` touches no path other than the audit log and the content
file. -/
lemma save_result_other (fs : FS) (u id f d t ts q : String)
    (h1 : q ≠ auditPath f) (h2 : q ≠ savePath d ts id) :
    getFile (save_result fs u id f d t ts) q = getFile fs q := by
  rw [save_result_eq]
  unfold writeTrunc appendFile
  rw [getFile_setFile_ne _ _ _ _ h2, getFile_setFile_ne _ _ _ _ h1, getFile_mkdirs]

/-- C5 (confirmed): calling `save_result` twice for the same category (same
rule, so same label `file` and directory) creates the category directory
only once — a pre-existing directory is not an error — appends one audit
line per call to the same audit-log file, preserving all prior content, and
each call writes a content file holding exactly the raw paste body plus a
trailing newline, at the name `savePath` built from the timestamp (with
`'/'` and `':'` replaced by `'_'` and `' '` by `'__'`) and the identifier
(with `'/'` removed).  The path-distinctness hypotheses only rule out a
label or timestamp collision between the three files involved. -/
theorem save_result_twice_same_category (fs : FS)
    (file directory url1 id1 txt1 ts1 url2 id2 txt2 ts2 : String)
    (h1 : savePath directory ts1 id1 ≠ auditPath file)
    (h2 : savePath directory ts2 id2 ≠ auditPath file)
    (h3 : savePath directory ts1 id1 ≠ savePath directory ts2 id2) :
    (save_result (save_result fs url1 id1 file directory txt1 ts1)
        url2 id2 file directory txt2 ts2).dirs =
      (if dirPath directory ∈ fs.dirs then fs.dirs
        else dirPath directory :: fs.dirs) ∧
    getFile (save_result (save_result fs url1 id1 file directory txt1 ts1)
        url2 id2 file directory txt2 ts2) (auditPath file) =
      getFile fs (auditPath file) ++ auditLine ts1 url1 ++ auditLine ts2 url2 ∧
    getFile (save_result (save_result fs url1 id1 file directory txt1 ts1)
        url2 id2 file directory txt2 ts2) (savePath directory ts1 id1) =
      txt1 ++ "\n" ∧
    getFile (save_result (save_result fs url1 id1 file directory txt1 ts1)
        url2 id2 file directory txt2 ts2) (savePath directory ts2 id2) =
      txt2 ++ "\n" := by
  refine ⟨?_, ?_, ?_, ?_⟩
  · rw [save_result_dirs]
    unfold mkdirs
    rw [if_pos (by rw [save_result_dirs]; exact mem_dirs_mkdirs fs (dirPath directory))]
    rw [save_result_dirs, dirs_mkdirs]
  · rw [save_result_audit _ _ _ _ _ _ _ h2, save_result_audit _ _ _ _ _ _ _ h1]
  · rw [save_result_other _ _ _ _ _ _ _ _ h1 h3, save_result_content]
  · rw [save_result_content]

/-- Witness for C5: two concrete saves into category `"found"` under label
`"tokens.txt"`, one second apart, starting from the empty file system. -/
theorem save_result_twice_same_category_witness :
    (save_result (save_result sampleFS "u1" "/id1" "tokens.txt" "found" "body one"
        "2026/10/12 10:00:00")
        "u2" "/id2" "tokens.txt" "found" "body two" "2026/10/12 10:00:01").dirs =
      (if dirPath "found" ∈ sampleFS.dirs then sampleFS.dirs
        else dirPath "found" :: sampleFS.dirs) ∧
    getFile (save_result (save_result sampleFS "u1" "/id1" "tokens.txt" "found"
        "body one" "2026/10/12 10:00:00")
        "u2" "/id2" "tokens.txt" "found" "body two" "2026/10/12 10:00:01")
        (auditPath "tokens.txt") =
      getFile sampleFS (auditPath "tokens.txt") ++
        auditLine "2026/10/12 10:00:00" "u1" ++ auditLine "2026/10/12 10:00:01" "u2" ∧
    getFile (save_result (save_result sampleFS "u1" "/id1" "tokens.txt" "found"
        "body one" "2026/10/12 10:00:00")
        "u2" "/id2" "tokens.txt" "found" "body two" "2026/10/12 10:00:01")
        (savePath "found" "2026/10/12 10:00:00" "/id1") = "body one" ++ "\n" ∧
    getFile (save_result (save_result sampleFS "u1" "/id1" "tokens.txt" "found"
        "body one" "2026/10/12 10:00:00")
        "u2" "/id2" "tokens.txt" "found" "body two" "2026/10/12 10:00:01")
        (savePath "found" "2026/10/12 10:00:01" "/id2") = "body two" ++ "\n" :=
  save_result_twice_same_category sampleFS "tokens.txt" "found" "u1" "/id1" "body one"
    "2026/10/12 10:00:00" "u2" "/id2" "body two" "2026/10/12 10:00:01"
    (by decide) (by decide) (by decide)

/-- `check_paste` when the fetch raises. -/
lemma check_paste_none (env : Env) (verbose : Bool) (fs : FS)
    (buf : List (String × String)) (paste_id : String)
    (hf : env.fetch paste_id = none) :
    check_paste env verbose fs buf paste_id = (false, fs, buf, [Ev.log fetchErrMsg]) := by
  unfold check_paste
  rw [hf]

/-- `check_paste` when the fetch returns a body. -/
lemma check_paste_some (env : Env) (verbose : Bool) (fs : FS)
    (buf : List (String × String)) (paste_id paste_txt : String)
    (hf : env.fetch paste_id = some paste_txt) :
    check_paste env verbose fs buf paste_id =
      check_paste_fetched env verbose fs buf paste_id paste_txt := by
  unfold check_paste
  rw [hf]

/-- The fetched branch when no rule matches. -/
lemma check_paste_fetched_nomatch (env : Env) (verbose : Bool) (fs : FS)
    (buf : List (String × String)) (paste_id paste_txt : String)
    (hcl : classify env.m env.regexes paste_txt = none) :
    check_paste_fetched env verbose fs buf paste_id paste_txt =
      (false, fs, buf ++ [(paste_id, paste_txt)],
        (if !verbose then show_paste paste_txt else []) ++
          [Ev.log ("Not matching paste: " ++ pasteUrl paste_id)]) := by
  unfold check_paste_fetched
  rw [hcl]

/-- The fetched branch on the first matching rule. -/
lemma check_paste_fetched_match (env : Env) (verbose : Bool) (fs : FS)
    (buf : List (String × String)) (paste_id paste_txt rg f d : String)
    (hcl : classify env.m env.regexes paste_txt = some (rg, f, d)) :
    check_paste_fetched env verbose fs buf paste_id paste_txt =
      (if (save_result_attempt env.contentWriteOk fs (pasteUrl paste_id)
            paste_id f d paste_txt env.ts).2 then
        (true, (save_result_attempt env.contentWriteOk fs (pasteUrl paste_id)
          paste_id f d paste_txt env.ts).1, buf,
          (if !verbose then show_paste paste_txt else []) ++
            [Ev.log ("Found a matching paste: " ++ pasteUrl paste_id ++
              " (" ++ f ++ ")")])
      else
        (false, (save_result_attempt env.contentWriteOk fs (pasteUrl paste_id)
          paste_id f d paste_txt env.ts).1, buf,
          (if !verbose then show_paste paste_txt else []) ++
            [Ev.log ("Found a matching paste: " ++ pasteUrl paste_id ++
              " (" ++ f ++ ")"), Ev.log fetchErrMsg])) := by
  unfold check_paste_fetched
  rw [hcl]

/-- C8 (confirmed): the verbosity flag only suppresses the `show_paste`
display events.  For every environment (hence every paste body, rule set
and fetch outcome), the two runs of `check_paste` that differ only in the
flag return the same value, the same file system (persisted files and audit
lines), and the same `pastes_for_save` buffer; only the event trace may
differ. -/
theorem verbose_flag_display_only (env : Env) (fs : FS)
    (buf : List (String × String)) (paste_id : String) :
    (check_paste env false fs buf paste_id).1 =
      (check_paste env true fs buf paste_id).1 ∧
    (check_paste env false fs buf paste_id).2.1 =
      (check_paste env true fs buf paste_id).2.1 ∧
    (check_paste env false fs buf paste_id).2.2.1 =
      (check_paste env true fs buf paste_id).2.2.1 := by
  cases hf : env.fetch paste_id with
  | none =>
    rw [check_paste_none env false fs buf paste_id hf,
      check_paste_none env true fs buf paste_id hf]
    exact ⟨rfl, rfl, rfl⟩
  | some txt =>
    rw [check_paste_some env false fs buf paste_id txt hf,
      check_paste_some env true fs buf paste_id txt hf]
    cases hcl : classify env.m env.regexes txt with
    | none =>
      rw [check_paste_fetched_nomatch env false fs buf paste_id txt hcl,
        check_paste_fetched_nomatch env true fs buf paste_id txt hcl]
      exact ⟨rfl, rfl, rfl⟩
    | some r =>
      obtain ⟨rg, f, d⟩ := r
      rw [check_paste_fetched_match env false fs buf paste_id txt rg f d hcl,
        check_paste_fetched_match env true fs buf paste_id txt rg f d hcl]
      by_cases hres : (save_result_attempt env.contentWriteOk fs (pasteUrl paste_id)
        paste_id f d txt env.ts).2 = true
      · rw [if_pos hres, if_pos hres]
        exact ⟨rfl, rfl, rfl⟩
      · rw [if_neg hres, if_neg hres]
        exact ⟨rfl, rfl, rfl⟩

/-- C10 (confirmed): persistence is not atomic.  The audit line is appended
before the content file is written, so when the content-file write fails
the returned state still contains the freshly appended audit line while the
content file is untouched (absent if it did not exist), the attempt reports
failure, and `check_paste` then returns `False` to its caller — the paste
is reported unpersisted. -/
theorem save_result_not_atomic (env : Env) (verbose : Bool) (fs fs2 : FS)
    (buf : List (String × String)) (url paste_id file directory txt ts pid2 : String)
    (h : savePath directory ts paste_id ≠ auditPath file)
    (hw : env.contentWriteOk = false) :
    (save_result_attempt false fs url paste_id file directory txt ts).2 = false ∧
    getFile (save_result_attempt false fs url paste_id file directory txt ts).1
        (auditPath file) =
      getFile fs (auditPath file) ++ auditLine ts url ∧
    fsFind (save_result_attempt false fs url paste_id file directory txt ts).1.files
        (savePath directory ts paste_id) =
      fsFind fs.files (savePath directory ts paste_id) ∧
    (check_paste env verbose fs2 buf pid2).1 = false := by
  refine ⟨rfl, ?_, ?_, ?_⟩
  · show getFile (appendFile (mkdirs fs (dirPath directory)) (auditPath file)
      (auditLine ts url)) (auditPath file) = getFile fs (auditPath file) ++ auditLine ts url
    unfold appendFile
    rw [getFile_setFile_same, getFile_mkdirs]
  · show fsFind (appendFile (mkdirs fs (dirPath directory)) (auditPath file)
        (auditLine ts url)).files (savePath directory ts paste_id) =
      fsFind fs.files (savePath directory ts paste_id)
    unfold appendFile setFile
    simp only [fsFind]
    rw [if_neg (fun hpq => h hpq.symm), fsFind_fsErase_ne _ _ _ h, files_mkdirs]
  · cases hf : env.fetch pid2 with
    | none => rw [check_paste_none env verbose fs2 buf pid2 hf]
    | some txt2 =>
      rw [check_paste_some env verbose fs2 buf pid2 txt2 hf]
      cases hcl : classify env.m env.regexes txt2 with
      | none => rw [check_paste_fetched_nomatch env verbose fs2 buf pid2 txt2 hcl]
      | some r =>
        obtain ⟨rg, f, d⟩ := r
        rw [check_paste_fetched_match env verbose fs2 buf pid2 txt2 rg f d hcl, hw]
        rw [if_neg (by exact fun hc => Bool.false_ne_true hc)]

/-- Witness for C10: a failing content write from the empty file system
leaves the audit line behind, creates no content file, and `check_paste`
under a write-failing environment reports `False`. -/
theorem save_result_not_atomic_witness :
    (save_result_attempt false sampleFS "u" "/id" "tokens.txt" "found" "body"
      "2026/10/12 10:00:00").2 = false ∧
    getFile (save_result_attempt false sampleFS "u" "/id" "tokens.txt" "found" "body"
        "2026/10/12 10:00:00").1 (auditPath "tokens.txt") =
      getFile sampleFS (auditPath "tokens.txt") ++
        auditLine "2026/10/12 10:00:00" "u" ∧
    fsFind (save_result_attempt false sampleFS "u" "/id" "tokens.txt" "found" "body"
        "2026/10/12 10:00:00").1.files (savePath "found" "2026/10/12 10:00:00" "/id") =
      fsFind sampleFS.files (savePath "found" "2026/10/12 10:00:00" "/id") ∧
    (check_paste { baseEnv with contentWriteOk := false } false sampleFS [] "/id").1 =
      false :=
  save_result_not_atomic { baseEnv with contentWriteOk := false } false sampleFS
    sampleFS [] "u" "/id" "tokens.txt" "found" "body" "2026/10/12 10:00:00" "/id"
    (by decide) rfl

/-- Filtering sleeps distributes over trace concatenation. -/
lemma sleepsOf_append (a b : List Ev) :
    sleepsOf (a ++ b) = sleepsOf a ++ sleepsOf b :=
  List.filter_append a b

/-- `check_paste` never sleeps: its trace holds only log/display events. -/
lemma check_paste_sleeps (env : Env) (verbose : Bool) (fs : FS)
    (buf : List (String × String)) (paste_id : String) :
    sleepsOf (check_paste env verbose fs buf paste_id).2.2.2 = [] := by
  cases hf : env.fetch paste_id with
  | none =>
    rw [check_paste_none env verbose fs buf paste_id hf]
    rfl
  | some txt =>
    rw [check_paste_some env verbose fs buf paste_id txt hf]
    cases hcl : classify env.m env.regexes txt with
    | none =>
      rw [check_paste_fetched_nomatch env verbose fs buf paste_id txt hcl]
      cases verbose <;> simp [sleepsOf, show_paste, isSleep]
    | some r =>
      obtain ⟨rg, f, d⟩ := r
      rw [check_paste_fetched_match env verbose fs buf paste_id txt rg f d hcl]
      by_cases hres : (save_result_attempt env.contentWriteOk fs (pasteUrl paste_id)
        paste_id f d txt env.ts).2 = true
      · rw [if_pos hres]
        cases verbose <;> simp [sleepsOf, show_paste, isSleep]
      · rw [if_neg hres]
        cases verbose <;> simp [sleepsOf, show_paste, isSleep]

/-- The sleeps of the per-paste loop: exactly one `delay` sleep per listing
entry not in the previously committed seen set, independent of the fetch
outcomes. -/
lemma foldl_process_sleeps (env : Env) (verbose : Bool) :
    ∀ (pastes : List String) (s : CState) (tr : List Ev),
      sleepsOf ((pastes.foldl (process_paste env verbose) (s, tr)).2) =
        sleepsOf tr ++ List.replicate
          ((pastes.filter (fun p => decide (p ∉ s.prev_checked_ids))).length)
          (Ev.sleep env.delay) := by
  intro pastes
  induction pastes with
  | nil => intro s tr; simp
  | cons p ps ih =>
    intro s tr
    by_cases hp : p ∈ s.prev_checked_ids
    · have hstep : process_paste env verbose (s, tr) p =
          (⟨s.prev_checked_ids, s.new_checked_ids ++ [p], s.count + 1, s.fs,
            s.pastes_for_save⟩, tr) := by
        simp [process_paste, hp]
      rw [List.foldl_cons, hstep, ih]
      simp [List.filter_cons, hp]
    · have hstep : process_paste env verbose (s, tr) p =
          (⟨s.prev_checked_ids, s.new_checked_ids ++ [p], s.count + 1,
            (check_paste env verbose s.fs s.pastes_for_save p).2.1,
            (check_paste env verbose s.fs s.pastes_for_save p).2.2.1⟩,
            tr ++ (check_paste env verbose s.fs s.pastes_for_save p).2.2.2 ++
              [Ev.sleep env.delay]) := by
        simp [process_paste, hp]
      rw [List.foldl_cons, hstep, ih]
      rw [sleepsOf_append, sleepsOf_append, check_paste_sleeps]
      simp [List.filter_cons, hp, sleepsOf, isSleep, List.replicate_succ]

/-- C7 (confirmed): a failure while fetching or reading a paste body is
non-fatal.  `check_paste` on a failed fetch only logs the error and returns
`False`, leaving disk and buffer untouched; the identifier still lands in
the committed seen set after the cycle, whatever the fetch outcomes; and
the cycle's sleeps (one inter-fetch `delay` per new listing entry plus the
refresh wait) are a function of the listing and the previously seen set
alone — the fetch outcome never changes the cycle status selected by the
loop, which slept on `backoff_trace` only for non-`OK` statuses. -/
theorem fetch_failure_nonfatal (env : Env) (verbose : Bool) (st : CState)
    (pastes : List String) (paste_id : String) (fs : FS)
    (buf : List (String × String)) :
    (env.fetch paste_id = none →
      check_paste env verbose fs buf paste_id =
        (false, fs, buf, [Ev.log fetchErrMsg])) ∧
    (paste_id ∈ pastes →
      paste_id ∈ (crawler_step env verbose st (OK, some pastes)).1.prev_checked_ids) ∧
    sleepsOf (crawler_step env verbose st (OK, some pastes)).2 =
      List.replicate
        ((pastes.filter (fun p => decide (p ∉ st.prev_checked_ids))).length)
        (Ev.sleep env.delay) ++
        sleepsOf (refresh_trace env.refresh_time env.elapsed) := by
  have hstep : crawler_step env verbose st (OK, some pastes) =
      (commit_ids env.flush_after_x_refreshes
        ((pastes.foldl (process_paste env verbose)
          (⟨st.prev_checked_ids, st.new_checked_ids, st.count, st.fs, []⟩, [])).1),
        (pastes.foldl (process_paste env verbose)
          (⟨st.prev_checked_ids, st.new_checked_ids, st.count, st.fs, []⟩, [])).2 ++
          refresh_trace env.refresh_time env.elapsed) := rfl
  refine ⟨fun hf => check_paste_none env verbose fs buf paste_id hf, ?_, ?_⟩
  · intro hmem
    obtain ⟨h1, h2, h3⟩ := foldl_process_ids env verbose pastes
      ⟨st.prev_checked_ids, st.new_checked_ids, st.count, st.fs, []⟩ []
    rw [hstep]
    unfold commit_ids
    split
    · show paste_id ∈ (pastes.foldl (process_paste env verbose)
        (⟨st.prev_checked_ids, st.new_checked_ids, st.count, st.fs, []⟩,
          [])).1.new_checked_ids
      rw [h2]
      exact List.mem_append_right _ hmem
    · show paste_id ∈ (pastes.foldl (process_paste env verbose)
        (⟨st.prev_checked_ids, st.new_checked_ids, st.count, st.fs, []⟩,
          [])).1.prev_checked_ids ++ (pastes.foldl (process_paste env verbose)
        (⟨st.prev_checked_ids, st.new_checked_ids, st.count, st.fs, []⟩,
          [])).1.new_checked_ids
      rw [h2]
      exact List.mem_append_right _ (List.mem_append_right _ hmem)
  · rw [hstep]
    simp only
    rw [sleepsOf_append, foldl_process_sleeps env verbose pastes
      ⟨st.prev_checked_ids, st.new_checked_ids, st.count, st.fs, []⟩ []]
    rfl

/-- Witness for C7: under the always-failing fetcher, the failed fetch of
`"/p"` is logged and skipped, `"/p"` is still committed as seen, and the
step's sleeps are the single inter-fetch delay plus the refresh wait. -/
theorem fetch_failure_nonfatal_witness :
    check_paste baseEnv false sampleFS [] "/p" =
      (false, sampleFS, [], [Ev.log fetchErrMsg]) ∧
    "/p" ∈ (crawler_step baseEnv false sampleState (OK, some ["/p"])).1.prev_checked_ids ∧
    sleepsOf (crawler_step baseEnv false sampleState (OK, some ["/p"])).2 =
      List.replicate
        ((["/p"].filter (fun p => decide (p ∉ sampleState.prev_checked_ids))).length)
        (Ev.sleep baseEnv.delay) ++
        sleepsOf (refresh_trace baseEnv.refresh_time baseEnv.elapsed) :=
  ⟨(fetch_failure_nonfatal baseEnv false sampleState ["/p"] "/p" sampleFS []).1 rfl,
    (fetch_failure_nonfatal baseEnv false sampleState ["/p"] "/p" sampleFS []).2.1
      (by decide),
    (fetch_failure_nonfatal baseEnv false sampleState ["/p"] "/p" sampleFS []).2.2⟩

/-- One loop step on an identifier that is NOT in the committed seen set:
`check_paste` runs (the decision reads only `prev_checked_ids`, never the
current cycle's `new_checked_ids` accumulator). -/
lemma process_paste_new (env : Env) (verbose : Bool) (s : CState) (tr : List Ev)
    (p : String) (hp : p ∉ s.prev_checked_ids) :
    process_paste env verbose (s, tr) p =
      (⟨s.prev_checked_ids, s.new_checked_ids ++ [p], s.count + 1,
        (check_paste env verbose s.fs s.pastes_for_save p).2.1,
        (check_paste env verbose s.fs s.pastes_for_save p).2.2.1⟩,
        tr ++ (check_paste env verbose s.fs s.pastes_for_save p).2.2.2 ++
          [Ev.sleep env.delay]) := by
  simp [process_paste, hp]

/-- C9 (confirmed): within one cycle the new/already-seen decision reads
only the identifiers committed in previous cycles, not the current cycle's
accumulator.  A listing that carries the same not-previously-seen
identifier twice fetches, classifies and — on a match — persists it twice
in that cycle: the audit log gains two lines for it. -/
theorem duplicate_listing_processed_twice (env : Env) (verbose : Bool)
    (st : CState) (x txt rg f d : String)
    (hmem : x ∉ st.prev_checked_ids)
    (hf : env.fetch x = some txt)
    (hcl : classify env.m env.regexes txt = some (rg, f, d))
    (hw : env.contentWriteOk = true)
    (hpath : savePath d env.ts x ≠ auditPath f) :
    getFile (crawler_step env verbose st (OK, some [x, x])).1.fs (auditPath f) =
      getFile st.fs (auditPath f) ++ auditLine env.ts (pasteUrl x) ++
        auditLine env.ts (pasteUrl x) := by
  have hcp : ∀ (fs : FS) (buf : List (String × String)),
      check_paste env verbose fs buf x =
        (true, save_result fs (pasteUrl x) x f d txt env.ts, buf,
          (if !verbose then show_paste txt else []) ++
            [Ev.log ("Found a matching paste: " ++ pasteUrl x ++
              " (" ++ f ++ ")")]) := by
    intro fs buf
    rw [check_paste_some env verbose fs buf x txt hf,
      check_paste_fetched_match env verbose fs buf x txt rg f d hcl, hw]
    rw [if_pos (show (save_result_attempt true fs (pasteUrl x) x f d txt env.ts).2 =
      true from rfl)]
    rfl
  have hstep : crawler_step env verbose st (OK, some [x, x]) =
      (commit_ids env.flush_after_x_refreshes
        (([x, x].foldl (process_paste env verbose)
          (⟨st.prev_checked_ids, st.new_checked_ids, st.count, st.fs, []⟩, [])).1),
        ([x, x].foldl (process_paste env verbose)
          (⟨st.prev_checked_ids, st.new_checked_ids, st.count, st.fs, []⟩, [])).2 ++
          refresh_trace env.refresh_time env.elapsed) := rfl
  rw [hstep, commit_ids_fs]
  simp only [List.foldl_cons, List.foldl_nil]
  rw [process_paste_new env verbose
    ⟨st.prev_checked_ids, st.new_checked_ids, st.count, st.fs, []⟩ [] x hmem]
  simp only [hcp]
  rw [process_paste_new env verbose
    ⟨st.prev_checked_ids, st.new_checked_ids ++ [x], st.count + 1,
      save_result st.fs (pasteUrl x) x f d txt env.ts, []⟩ _ x hmem]
  simp only [hcp]
  rw [save_result_audit _ _ _ _ _ _ _ hpath, save_result_audit _ _ _ _ _ _ _ hpath]

/-- A concrete matching environment: one rule, and a fetcher that serves a
matching body for `"/dup"`. -/
def matchEnv : Env :=
  { baseEnv with
    m := icontains
    regexes := [("token", "tokens.txt", "found")]
    fetch := fun s => if s = "/dup" then some "a token b" else none }

/-- Witness for C9: the duplicate listing `["/dup", "/dup"]` against the
initial state writes two audit lines for `"/dup"` in one cycle. -/
theorem duplicate_listing_processed_twice_witness :
    getFile (crawler_step matchEnv false sampleState (OK, some ["/dup", "/dup"])).1.fs
        (auditPath "tokens.txt") =
      getFile sampleState.fs (auditPath "tokens.txt") ++
        auditLine matchEnv.ts (pasteUrl "/dup") ++
        auditLine matchEnv.ts (pasteUrl "/dup") :=
  duplicate_listing_processed_twice matchEnv false sampleState "/dup" "a token b"
    "token" "tokens.txt" "found" (by decide) (by decide) (by decide) rfl (by decide)

end PastebinCrawler
